import Mathlib

/-!
# ai-web-auditor — lead-capture funnel: shallow embedding and verification

This file embeds the lead-capture funnel of the ai-web-auditor frontend
(`src/frontend/components/ReportView.tsx`, `EnrollmentForm.tsx`,
`PackageSelection` / `LeadCaptureFlow`, `StripeCheckout.tsx`,
`contract-security.ts`, and the payment-success page) in Lean 4 and proves
or refutes the testable properties of its specification.

Conventions:
- JS prices (floating point in the source) are embedded as rationals; the
  catalog values 0, 1.99, 4.99 are exact in both representations and every
  claim only compares them with 0.
- JS string truthiness for `leadData.leadId` / `leadData.selectedPackage`
  is embedded as "≠ empty string".
- Stateful React components are embedded as explicit state types with one
  Lean function per event handler.
-/

namespace AiWebAuditor

/-! ## Funnel steps

`type FlowStep = 'url-input' | 'auditing' | 'teaser-results' |
'package-selection' | 'enrollment' | 'social-share' | 'payment' | 'complete'`
(ReportView.tsx, LeadCaptureFlow). -/

inductive FlowStep where
  | urlInput
  | auditing
  | teaserResults
  | packageSelection
  | enrollment
  | socialShare
  | payment
  | complete
deriving DecidableEq, Repr

/-! ## Package catalog

`PACKAGE_PRICES` from ReportView.tsx (LeadCaptureFlow) and
`DEFAULT_PACKAGES` / `AUDIT_TYPES` from the PackageSelection component. -/

structure PackagePrice where
  price : ℚ
  currency : String
  name : String
deriving DecidableEq, Repr

def PACKAGE_PRICES : List (String × PackagePrice) :=
  [ ("starter", { price := 0, currency := "EUR", name := "Starter" }),
    ("pro", { price := 199/100, currency := "EUR", name := "Pro" }),
    ("full", { price := 499/100, currency := "EUR", name := "Full" }) ]

structure Package where
  id : String
  name : String
  price : ℚ
  currency : String
  auditsIncluded : Nat
  totalAudits : Nat
  features : List String
  popular : Bool
  requiresShare : Bool
  pdfType : String
deriving DecidableEq, Repr

def DEFAULT_PACKAGES : List Package :=
  [ { id := "starter", name := "Starter", price := 0, currency := "EUR",
      auditsIncluded := 2, totalAudits := 6,
      features := ["Choose 2 audit types", "Basic score overview",
                   "Share on social media"],
      popular := false, requiresShare := true, pdfType := "none" },
    { id := "pro", name := "Pro", price := 199/100, currency := "EUR",
      auditsIncluded := 4, totalAudits := 6,
      features := ["Choose 4 audit types", "Detailed issue breakdown",
                   "Basic PDF report", "Email delivery"],
      popular := true, requiresShare := false, pdfType := "basic" },
    { id := "full", name := "Full", price := 499/100, currency := "EUR",
      auditsIncluded := 6, totalAudits := 6,
      features := ["All 6 audit types", "Full issue details",
                   "Professional PDF report", "Priority support",
                   "AI recommendations"],
      popular := false, requiresShare := false, pdfType := "professional" } ]

/-- The ids of `AUDIT_TYPES` in PackageSelection, in declaration order. -/
def AUDIT_TYPE_IDS : List String :=
  ["performance", "seo", "security", "gdpr", "accessibility", "technical"]

/-! ## Enrollment → unlock branch

`handleEnrollmentSubmit` (ReportView.tsx, LeadCaptureFlow) ends with
`if (selectedPkg === 'starter') setStep('social-share') else setStep('payment')`. -/

def enrollmentNextStep (selectedPackage : String) : FlowStep :=
  if selectedPackage = "starter" then .socialShare else .payment

end AiWebAuditor

namespace AiWebAuditor

/-- C1: under the in-code catalog `PACKAGE_PRICES`, enrollment submission
advances to `social-share` exactly for the packages of price 0 (only
`starter`), and to `payment` for every package of positive price; moreover
every package id other than `starter` goes to `payment`. -/
theorem c1_free_tier_unlock_exclusivity :
    (∀ pid pr, (pid, pr) ∈ PACKAGE_PRICES →
      ((enrollmentNextStep pid = .socialShare ↔ pr.price = 0) ∧
       (0 < pr.price → enrollmentNextStep pid = .payment))) ∧
    enrollmentNextStep "starter" = .socialShare ∧
    (∀ pid, pid ≠ "starter" → enrollmentNextStep pid = .payment) := by
  refine ⟨?_, by decide, ?_⟩
  · intro pid pr h
    simp only [PACKAGE_PRICES, List.mem_cons, List.mem_singleton,
      List.not_mem_nil, or_false, Prod.mk.injEq] at h
    rcases h with ⟨h1, h2⟩ | ⟨h1, h2⟩ | ⟨h1, h2⟩ <;> subst h1 <;> subst h2 <;>
      constructor
    · simp [enrollmentNextStep]
    · intro hp
      exact absurd hp (by norm_num)
    · exact iff_of_false (by decide) (by norm_num)
    · intro hp
      simp [enrollmentNextStep]
    · exact iff_of_false (by decide) (by norm_num)
    · intro hp
      simp [enrollmentNextStep]
  · intro pid hpid
    unfold enrollmentNextStep
    simp [hpid]

/-- Witness for C1: the catalog membership hypotheses are satisfiable —
`starter` is in the catalog at price 0 and goes to `social-share`;
`pro` has positive price and goes to `payment`. -/
theorem c1_free_tier_unlock_exclusivity_witness :
    enrollmentNextStep "starter" = .socialShare ∧
    enrollmentNextStep "pro" = .payment := by
  refine ⟨?_, ?_⟩
  · exact (c1_free_tier_unlock_exclusivity.1 "starter"
      { price := 0, currency := "EUR", name := "Starter" }
      (by simp [PACKAGE_PRICES])).1.mpr rfl
  · exact (c1_free_tier_unlock_exclusivity.1 "pro"
      { price := 199/100, currency := "EUR", name := "Pro" }
      (by simp [PACKAGE_PRICES])).2 (by norm_num)

end AiWebAuditor

namespace AiWebAuditor

/-! ## contract-security.ts

Embeddings of `generateEnrollmentReference`, `createTermsAcceptance` and the
hex encoding used by `sha256`.  The SHA-256 digest itself is produced by the
browser (`crypto.subtle.digest`), out of scope; it is represented as a list
of 32 bytes, and the source's hex rendering of it is embedded exactly. -/

/-- `b.toString(16)` for a byte `b` (the source applies it to entries of a
`Uint8Array`, so `b < 256`; the two-digit branch is the rendering for
`16 ≤ b < 256`). -/
def jsByteHexChars (b : Nat) : List Char :=
  if b < 16 then [Nat.digitChar b]
  else [Nat.digitChar (b / 16), Nat.digitChar (b % 16)]

/-- `b.toString(16).padStart(2, '0')` — left-pad the hex rendering to two
characters. -/
def jsByteHexPadded (b : Nat) : List Char :=
  let ds := jsByteHexChars b
  if ds.length < 2 then '0' :: ds else ds

/-- The hex string `sha256` returns for a digest (`hashArray.map(b =>
b.toString(16).padStart(2, '0')).join('')`). -/
def sha256HexOfDigest (digest : List Nat) : String :=
  ⟨(digest.map jsByteHexPadded).flatten⟩

/-- Base-36 digit characters as produced by JS `Number.prototype.toString(36)`
(digits then lowercase letters). -/
def digit36Char (n : Fin 36) : Char :=
  if n.val < 10 then Char.ofNat ('0'.toNat + n.val)
  else Char.ofNat ('a'.toNat + (n.val - 10))

/-- `Math.random().toString(36)` for a random value in `[0, 1)`, the value
represented by the list of base-36 digits of its fractional expansion
(trailing zeros trimmed, as JS prints the shortest form): `"0"` when the
expansion is empty (the value 0), otherwise `"0."` followed by the digits. -/
def jsRandomToString36 (digits : List (Fin 36)) : String :=
  if digits.isEmpty then "0"
  else "0." ++ ⟨digits.map digit36Char⟩

/-- JS `s.substring(a, b)` for `a ≤ b`: the characters at indices
`[a, b)`, clamped to the string length. -/
def jsSubstring (s : String) (a b : Nat) : String :=
  ⟨(s.toList.drop a).take (b - a)⟩

/-- Fixed-width two-digit decimal rendering (the month/day fields of
`Date.prototype.toISOString`, exact for values below 100). -/
def pad2Chars (n : Nat) : List Char :=
  [Nat.digitChar (n / 10 % 10), Nat.digitChar (n % 10)]

/-- Fixed-width four-digit decimal rendering (the year field of
`Date.prototype.toISOString`, exact for years 0–9999). -/
def pad4Chars (n : Nat) : List Char :=
  [Nat.digitChar (n / 1000 % 10), Nat.digitChar (n / 100 % 10),
   Nat.digitChar (n / 10 % 10), Nat.digitChar (n % 10)]

/-- `date.toISOString().split('T')[0]` with the hyphens removed (the
`replace` call) — the UTC date as eight digits `YYYYMMDD`. -/
def isoDateCompact (year month day : Nat) : String :=
  ⟨pad4Chars year ++ pad2Chars month ++ pad2Chars day⟩

/-- `Math.random().toString(36).substring(2, 6).toUpperCase()` —
`toUpperCase` applied character-wise. -/
def enrollmentRandomPart (randDigits : List (Fin 36)) : String :=
  ⟨(jsSubstring (jsRandomToString36 randDigits) 2 6).toList.map Char.toUpper⟩

/-- `generateEnrollmentReference` from contract-security.ts, with the current
UTC date and the base-36 fractional digits of the `Math.random()` draw as
explicit inputs. -/
def generateEnrollmentReference (year month day : Nat)
    (randDigits : List (Fin 36)) : String :=
  let dateStr := isoDateCompact year month day
  let randomPart := enrollmentRandomPart randDigits
  "AWA-" ++ dateStr ++ "-" ++ randomPart

/-- `TermsAcceptance` (contract-security.ts). -/
structure TermsAcceptance where
  termsVersion : String
  acceptedAt : String
  ipAddress : Option String
  userAgent : String
  signatureDataUrl : Option String
deriving DecidableEq, Repr

/-- `createTermsAcceptance` (contract-security.ts); `acceptedAt`,
`ipAddress` (null on lookup failure) and `userAgent` come from the
environment. -/
def createTermsAcceptance (termsVersion : String)
    (signatureDataUrl : Option String) (acceptedAt : String)
    (ipAddress : Option String) (userAgent : String) : TermsAcceptance :=
  { termsVersion := termsVersion, acceptedAt := acceptedAt,
    ipAddress := ipAddress, userAgent := userAgent,
    signatureDataUrl := signatureDataUrl }

/-! ## EnrollmentForm.tsx -/

def TERMS_VERSION : String := "1.0.0"
def PRIVACY_VERSION : String := "1.0.0"

/-- The JS `\s` whitespace class, restricted to its common members (the
exotic Unicode spaces never occur in the funnel's inputs). -/
def jsSpaceChar (c : Char) : Bool :=
  c = ' ' || c = '\t' || c = '\n' || c = '\r' || c = '\x0b' || c = '\x0c'

/-- The character class `[^\s@]` of the email pattern: not whitespace and
not `@`. -/
def emailAtomChar (c : Char) : Bool :=
  !jsSpaceChar c && c ≠ '@'

/-- Split a character list at every occurrence of `sep` (the semantics of
JS `String.prototype.split` with a one-character separator). -/
def splitAtChar (sep : Char) : List Char → List (List Char)
  | [] => [[]]
  | x :: xs =>
    match splitAtChar sep xs with
    | [] => [[]]
    | g :: gs => if x = sep then [] :: g :: gs else (x :: g) :: gs

/-- The validation `/^[^\s@]+@[^\s@]+\.[^\s@]+$/.test(email)`: the string
decomposes as `A@B.C` with `A`, `B`, `C` nonempty and free of whitespace
and `@`; equivalently, exactly one `@`, both sides nonempty and atom-only,
and a `.` strictly inside the part after the `@`. -/
def isEmailValid (email : String) : Bool :=
  match splitAtChar '@' email.toList with
  | [bs, as_] =>
    !bs.isEmpty && bs.all emailAtomChar &&
    !as_.isEmpty && as_.all emailAtomChar &&
    ((as_.drop 1).dropLast).contains '.'
  | _ => false

/-- JS `String.prototype.trim`: strip leading and trailing whitespace. -/
def jsTrimChars (l : List Char) : List Char :=
  ((l.dropWhile jsSpaceChar).reverse.dropWhile jsSpaceChar).reverse

/-- `signatureDataUrl || undefined`: JS falsy coercion of the nullable
signature payload (null and the empty string both become undefined). -/
def jsOrUndefined (o : Option String) : Option String :=
  match o with
  | some s => if s = "" then none else some s
  | none => none

/-- `EnrollmentData` (EnrollmentForm.tsx). -/
structure EnrollmentData where
  enrollmentId : String
  email : String
  name : String
  language : String
  termsAcceptance : TermsAcceptance
  newsletterConsent : Bool
  signatureDataUrl : Option String
deriving DecidableEq, Repr

/-- The form's state hooks (EnrollmentForm.tsx). -/
structure EnrollmentFormState where
  email : String
  name : String
  language : String
  termsAccepted : Bool
  privacyAccepted : Bool
  newsletterConsent : Bool
  signatureDataUrl : Option String
deriving DecidableEq, Repr

/-- Browser-environment inputs of a submission: timestamp, best-effort IP,
user agent, and the date and `Math.random()` digits consumed by
`generateEnrollmentReference`. -/
structure ClientEnv where
  acceptedAt : String
  ipAddress : Option String
  userAgent : String
  year : Nat
  month : Nat
  day : Nat
  randDigits : List (Fin 36)
deriving DecidableEq, Repr

/-- `isFormValid` (EnrollmentForm.tsx):
`isEmailValid && name.trim().length >= 2 && termsAccepted && privacyAccepted`. -/
def isFormValid (s : EnrollmentFormState) : Bool :=
  isEmailValid s.email && decide (2 ≤ (jsTrimChars s.name.toList).length) &&
    s.termsAccepted && s.privacyAccepted

/-- `handleSubmit` (EnrollmentForm.tsx): refuse when the form is invalid
(`if (!isFormValid) return` — no callback fires); otherwise build the
`EnrollmentData` handed to the success callback. -/
def handleSubmit (env : ClientEnv) (s : EnrollmentFormState) :
    Option EnrollmentData :=
  if isFormValid s then
    some { enrollmentId :=
             generateEnrollmentReference env.year env.month env.day
               env.randDigits,
           email := s.email, name := s.name, language := s.language,
           termsAcceptance :=
             createTermsAcceptance
               ("terms:" ++ TERMS_VERSION ++ ",privacy:" ++ PRIVACY_VERSION)
               (jsOrUndefined s.signatureDataUrl)
               env.acceptedAt env.ipAddress env.userAgent,
           newsletterConsent := s.newsletterConsent,
           signatureDataUrl := jsOrUndefined s.signatureDataUrl }
  else none

/-! ## LeadCaptureFlow (ReportView.tsx): enrollment submission -/

/-- The audit-status response body; the claims only inspect `status`
(score fields elided). -/
structure AuditResult where
  status : String
deriving DecidableEq, Repr

/-- The `LeadData` state of LeadCaptureFlow. -/
structure LeadData where
  url : String
  auditId : String
  leadId : String
  auditResult : Option AuditResult
  selectedPackage : String
  selectedAudits : List String
  enrollment : Option EnrollmentData
deriving DecidableEq, Repr

/-- The `leadsApi.createLead` request body built in `handleEnrollmentSubmit`
(the `EnrollmentRequest` of lib/api.ts). -/
structure EnrollPayload where
  email : String
  name : String
  language : String
  audit_id : String
  package_id : String
  selected_audits : List String
  signature_data : Option String
  newsletter_consent : Bool
  fingerprint : Option String
  terms_hash : Option String
deriving DecidableEq, Repr

/-- The request body of `handleEnrollmentSubmit` (ReportView.tsx):
`fingerprint` is the literal `'captured'` when a signature was captured, and
`terms_hash` is `data.termsAcceptance?.termsVersion`. -/
def mkEnrollPayload (ld : LeadData) (data : EnrollmentData) : EnrollPayload :=
  { email := data.email, name := data.name, language := data.language,
    audit_id := ld.auditId, package_id := ld.selectedPackage,
    selected_audits := ld.selectedAudits,
    signature_data := data.signatureDataUrl,
    newsletter_consent := data.newsletterConsent,
    fingerprint :=
      if data.termsAcceptance.signatureDataUrl.isSome then some "captured"
      else none,
    terms_hash := some data.termsAcceptance.termsVersion }

/-- `handleEnrollmentSubmit` (ReportView.tsx).  `backendLeadId` is the
outcome of the `createLead` call: `some lid` when it resolved with a truthy
`lead_id`, `none` when the request failed (the `catch` only logs — no error
state is set) or the response carried no id.  The step returned is the
`setStep` target: `social-share` for `'starter'`, `payment` otherwise. -/
def handleEnrollmentSubmit (backendLeadId : Option String) (ld : LeadData)
    (data : EnrollmentData) : LeadData × FlowStep :=
  let ld1 := { ld with enrollment := some data }
  let ld2 := match backendLeadId with
    | some lid => { ld1 with leadId := lid }
    | none => ld1
  (ld2, enrollmentNextStep ld2.selectedPackage)

/-- One enrollment-step submission, end to end: the form's `handleSubmit`
gate, then (only if it fired) `handleEnrollmentSubmit`.  Returns the
resulting lead state, the funnel step, and the `createLead` request that was
sent (`none` when no request was made). -/
def enrollmentStepOutcome (env : ClientEnv) (backendLeadId : Option String)
    (ld : LeadData) (s : EnrollmentFormState) :
    LeadData × FlowStep × Option EnrollPayload :=
  match handleSubmit env s with
  | none => (ld, .enrollment, none)
  | some data =>
    let r := handleEnrollmentSubmit backendLeadId ld data
    (r.1, r.2, some (mkEnrollPayload ld data))

end AiWebAuditor

namespace AiWebAuditor

/-- C2: when `termsAccepted` or `privacyAccepted` is false, enrollment
submission is refused regardless of every other field: the lead state is
unchanged, the funnel stays in the `enrollment` step, and no `createLead`
request is made. -/
theorem c2_consent_gate (env : ClientEnv) (backendLeadId : Option String)
    (ld : LeadData) (s : EnrollmentFormState)
    (h : s.termsAccepted = false ∨ s.privacyAccepted = false) :
    enrollmentStepOutcome env backendLeadId ld s = (ld, .enrollment, none) := by
  have hv : isFormValid s = false := by
    rcases h with h | h <;> simp [isFormValid, h]
  simp [enrollmentStepOutcome, handleSubmit, hv]

/-- Witness for C2: a submission with valid email, name, language and a
signature, but `termsAccepted = false`, is refused. -/
theorem c2_consent_gate_witness :
    enrollmentStepOutcome
      { acceptedAt := "2026-02-07T10:00:00.000Z", ipAddress := none,
        userAgent := "ua", year := 2026, month := 2, day := 7,
        randDigits := [] }
      (some "L1")
      { url := "https://example.com", auditId := "A1", leadId := "",
        auditResult := none, selectedPackage := "starter",
        selectedAudits := ["performance", "seo"], enrollment := none }
      { email := "jane@example.com", name := "Jane Doe", language := "en",
        termsAccepted := false, privacyAccepted := true,
        newsletterConsent := true, signatureDataUrl := some "data:image/png" }
      = ({ url := "https://example.com", auditId := "A1", leadId := "",
           auditResult := none, selectedPackage := "starter",
           selectedAudits := ["performance", "seo"], enrollment := none },
         .enrollment, none) :=
  c2_consent_gate _ _ _ _ (Or.inl rfl)

end AiWebAuditor

namespace AiWebAuditor

/-! ## C3: the transmitted terms hash -/

/-- Every `jsByteHexPadded` rendering is two characters. -/
theorem jsByteHexPadded_length (b : Nat) : (jsByteHexPadded b).length = 2 := by
  simp only [jsByteHexPadded, jsByteHexChars]
  split <;> simp

/-- The hex string of a digest has two characters per byte. -/
theorem sha256HexOfDigest_length (d : List Nat) :
    (sha256HexOfDigest d).length = 2 * d.length := by
  show ((d.map jsByteHexPadded).flatten).length = 2 * d.length
  induction d with
  | nil => rfl
  | cons b t ih =>
    simp [List.length_append, ih, jsByteHexPadded_length, Nat.mul_succ,
      Nat.add_comm]

/-- C3: the `terms_hash` transmitted with the create-lead request is not a
content hash.  (i) What the form hands over carries, as `termsVersion`, the
literal versions string `"terms:1.0.0,privacy:1.0.0"`; (ii) the request body
copies that string into `terms_hash` (and the raw signature payload into
`signature_data` — no `signature_hash` exists in the payload); (iii) no
SHA-256 digest (32 bytes, rendered by the source's own hex encoding) can
equal that string, so the transmitted value is not a hash of any content. -/
theorem c3_terms_hash_is_version_not_hash :
    (∀ env s, isFormValid s = true →
      (handleSubmit env s).map (fun d => d.termsAcceptance.termsVersion)
        = some ("terms:" ++ TERMS_VERSION ++ ",privacy:" ++ PRIVACY_VERSION)) ∧
    (∀ ld data,
      (mkEnrollPayload ld data).terms_hash
          = some data.termsAcceptance.termsVersion ∧
      (mkEnrollPayload ld data).signature_data = data.signatureDataUrl) ∧
    (∀ digest : List Nat, digest.length = 32 →
      sha256HexOfDigest digest
        ≠ "terms:" ++ TERMS_VERSION ++ ",privacy:" ++ PRIVACY_VERSION) := by
  refine ⟨?_, ?_, ?_⟩
  · intro env s hv
    simp [handleSubmit, hv, createTermsAcceptance]
  · intro ld data
    exact ⟨rfl, rfl⟩
  · intro digest hlen heq
    have h64 := sha256HexOfDigest_length digest
    rw [heq, hlen] at h64
    exact absurd h64 (by decide)

/-- Witness for C3: a concrete valid submission yields the versions string as
`termsVersion`, and a concrete 32-byte digest's hex rendering differs from
it. -/
theorem c3_terms_hash_is_version_not_hash_witness :
    (handleSubmit
        { acceptedAt := "2026-02-07T10:00:00.000Z", ipAddress := none,
          userAgent := "ua", year := 2026, month := 2, day := 7,
          randDigits := [] }
        { email := "jane@example.com", name := "Jane Doe", language := "en",
          termsAccepted := true, privacyAccepted := true,
          newsletterConsent := false,
          signatureDataUrl := some "data:image/png" }).map
      (fun d => d.termsAcceptance.termsVersion)
        = some ("terms:" ++ TERMS_VERSION ++ ",privacy:" ++ PRIVACY_VERSION) ∧
    sha256HexOfDigest (List.replicate 32 0)
        ≠ "terms:" ++ TERMS_VERSION ++ ",privacy:" ++ PRIVACY_VERSION :=
  ⟨c3_terms_hash_is_version_not_hash.1 _ _ (by decide),
   c3_terms_hash_is_version_not_hash.2.2 _ (by simp)⟩

/-! ## C4: lead-creation failure and the unlock-step render guards -/

/-- The JSX guard of the social-share section (ReportView.tsx):
`step === 'social-share' && leadData.leadId && <SocialShareUnlock …/>` —
the unlock component mounts only when `leadId` is truthy (nonempty). -/
def rendersSocialShareUnlock (step : FlowStep) (ld : LeadData) : Bool :=
  decide (step = FlowStep.socialShare) && decide (ld.leadId ≠ "")

/-- The JSX guard of the payment section (ReportView.tsx):
`step === 'payment' && leadData.selectedPackage && <StripeCheckout …/>`. -/
def rendersStripeCheckout (step : FlowStep) (ld : LeadData) : Bool :=
  decide (step = FlowStep.payment) && decide (ld.selectedPackage ≠ "")

/-- C4: when the create-lead call fails on a `starter` (free) enrollment,
`handleEnrollmentSubmit` still advances the funnel to `social-share`
(the failure is swallowed — the code only logs), but `leadId` remains the
empty string, so the social-share section's render guard refuses to mount
`SocialShareUnlock`: the user faces a blank unlock step — a silent stall.
With a successful create-lead call the same state renders the unlock; and
on the paid path (`pro`) the checkout renders even when the call fails. -/
theorem c4_lead_failure_free_tier_stalls :
    (handleEnrollmentSubmit none
      { url := "https://example.com", auditId := "A1", leadId := "",
        auditResult := some { status := "completed" },
        selectedPackage := "starter",
        selectedAudits := ["performance", "seo"], enrollment := none }
      { enrollmentId := "AWA-20260207-ABCD", email := "jane@example.com",
        name := "Jane Doe", language := "en",
        termsAcceptance :=
          { termsVersion := "terms:1.0.0,privacy:1.0.0",
            acceptedAt := "2026-02-07T10:00:00.000Z", ipAddress := none,
            userAgent := "ua", signatureDataUrl := none },
        newsletterConsent := false, signatureDataUrl := none }).2
      = .socialShare ∧
    rendersSocialShareUnlock
      (handleEnrollmentSubmit none
        { url := "https://example.com", auditId := "A1", leadId := "",
          auditResult := some { status := "completed" },
          selectedPackage := "starter",
          selectedAudits := ["performance", "seo"], enrollment := none }
        { enrollmentId := "AWA-20260207-ABCD", email := "jane@example.com",
          name := "Jane Doe", language := "en",
          termsAcceptance :=
            { termsVersion := "terms:1.0.0,privacy:1.0.0",
              acceptedAt := "2026-02-07T10:00:00.000Z", ipAddress := none,
              userAgent := "ua", signatureDataUrl := none },
          newsletterConsent := false, signatureDataUrl := none }).2
      (handleEnrollmentSubmit none
        { url := "https://example.com", auditId := "A1", leadId := "",
          auditResult := some { status := "completed" },
          selectedPackage := "starter",
          selectedAudits := ["performance", "seo"], enrollment := none }
        { enrollmentId := "AWA-20260207-ABCD", email := "jane@example.com",
          name := "Jane Doe", language := "en",
          termsAcceptance :=
            { termsVersion := "terms:1.0.0,privacy:1.0.0",
              acceptedAt := "2026-02-07T10:00:00.000Z", ipAddress := none,
              userAgent := "ua", signatureDataUrl := none },
          newsletterConsent := false, signatureDataUrl := none }).1
      = false ∧
    rendersSocialShareUnlock
      (handleEnrollmentSubmit (some "L1")
        { url := "https://example.com", auditId := "A1", leadId := "",
          auditResult := some { status := "completed" },
          selectedPackage := "starter",
          selectedAudits := ["performance", "seo"], enrollment := none }
        { enrollmentId := "AWA-20260207-ABCD", email := "jane@example.com",
          name := "Jane Doe", language := "en",
          termsAcceptance :=
            { termsVersion := "terms:1.0.0,privacy:1.0.0",
              acceptedAt := "2026-02-07T10:00:00.000Z", ipAddress := none,
              userAgent := "ua", signatureDataUrl := none },
          newsletterConsent := false, signatureDataUrl := none }).2
      (handleEnrollmentSubmit (some "L1")
        { url := "https://example.com", auditId := "A1", leadId := "",
          auditResult := some { status := "completed" },
          selectedPackage := "starter",
          selectedAudits := ["performance", "seo"], enrollment := none }
        { enrollmentId := "AWA-20260207-ABCD", email := "jane@example.com",
          name := "Jane Doe", language := "en",
          termsAcceptance :=
            { termsVersion := "terms:1.0.0,privacy:1.0.0",
              acceptedAt := "2026-02-07T10:00:00.000Z", ipAddress := none,
              userAgent := "ua", signatureDataUrl := none },
          newsletterConsent := false, signatureDataUrl := none }).1
      = true ∧
    rendersStripeCheckout
      (handleEnrollmentSubmit none
        { url := "https://example.com", auditId := "A1", leadId := "",
          auditResult := some { status := "completed" },
          selectedPackage := "pro",
          selectedAudits := ["performance", "seo", "security", "gdpr"],
          enrollment := none }
        { enrollmentId := "AWA-20260207-ABCD", email := "jane@example.com",
          name := "Jane Doe", language := "en",
          termsAcceptance :=
            { termsVersion := "terms:1.0.0,privacy:1.0.0",
              acceptedAt := "2026-02-07T10:00:00.000Z", ipAddress := none,
              userAgent := "ua", signatureDataUrl := none },
          newsletterConsent := false, signatureDataUrl := none }).2
      (handleEnrollmentSubmit none
        { url := "https://example.com", auditId := "A1", leadId := "",
          auditResult := some { status := "completed" },
          selectedPackage := "pro",
          selectedAudits := ["performance", "seo", "security", "gdpr"],
          enrollment := none }
        { enrollmentId := "AWA-20260207-ABCD", email := "jane@example.com",
          name := "Jane Doe", language := "en",
          termsAcceptance :=
            { termsVersion := "terms:1.0.0,privacy:1.0.0",
              acceptedAt := "2026-02-07T10:00:00.000Z", ipAddress := none,
              userAgent := "ua", signatureDataUrl := none },
          newsletterConsent := false, signatureDataUrl := none }).1
      = true := by
  decide

end AiWebAuditor

namespace AiWebAuditor

/-! ## C5: the audit-status poll (ReportView.tsx, LeadCaptureFlow)

The `useEffect` for the `auditing` step dispatches `fetchAudit` immediately
and then every 2 s.  Each response handler runs unguarded when its promise
resolves — there is no request counter, abort, or staleness check, and a
promise already in flight still runs its handler after `clearInterval`.  The
funnel state a sequence of responses produces is therefore the left fold of
the handler over the responses in *resolution* order. -/

/-- The funnel state touched by the poll handler. -/
structure PollState where
  step : FlowStep
  error : String
  auditResult : Option AuditResult
deriving DecidableEq, Repr

/-- The response handler inside `fetchAudit`: on `'completed'` store the
result and advance to `teaser-results`; on `'failed'` set the error and
regress to `url-input`; anything else (pending/running) leaves the state
alone. -/
def pollHandler (resp : AuditResult) (st : PollState) : PollState :=
  if resp.status = "completed" then
    { st with step := .teaserResults, auditResult := some resp }
  else if resp.status = "failed" then
    { st with step := .urlInput, error := "Audit failed. Please try again." }
  else st

/-- The state after a list of poll responses is processed, in the order the
responses resolved. -/
def processPollResponses (resps : List AuditResult) (st : PollState) :
    PollState :=
  resps.foldl (fun s r => pollHandler r s) st

/-- C5: the poll has no stale-response guard.  Two requests are in flight
from the `auditing` state; the later-dispatched one resolves first with
`'completed'` (the funnel shows `teaser-results`), then the earlier-dispatched
one resolves with `'failed'` — and its unguarded handler regresses the funnel
to `url-input` with an error.  The final state reflects the earlier-dispatched
request, not the most recently dispatched one, contradicting the claim. -/
theorem c5_no_stale_poll_guard :
    (processPollResponses
        [{ status := "completed" }, { status := "failed" }]
        { step := .auditing, error := "", auditResult := none }).step
      = .urlInput ∧
    (pollHandler { status := "completed" }
        { step := .auditing, error := "", auditResult := none }).step
      = .teaserResults ∧
    (processPollResponses
        [{ status := "completed" }, { status := "failed" }]
        { step := .auditing, error := "", auditResult := none }).step
      ≠ (pollHandler { status := "completed" }
          { step := .auditing, error := "", auditResult := none }).step := by
  decide

end AiWebAuditor

namespace AiWebAuditor

/-! ## C6: the pending-payment handoff record

`StripeCheckout.handleCheckout` writes
`sessionStorage.setItem('pending_payment', JSON.stringify({auditId, leadId,
packageId, sessionId}))` before the redirect; `PaymentSuccessContent` reads
the key, parses it, and — when the parse succeeds — removes the key.  The
storage slot is embedded as an optional stored blob; whether `JSON.parse`
succeeds on a blob is part of the blob's representation (`JSON.stringify`
output always parses back). -/

/-- The `{auditId, leadId?, packageId, sessionId}` record. -/
structure PendingPayment where
  auditId : String
  leadId : Option String
  packageId : String
  sessionId : String
deriving DecidableEq, Repr

/-- A stored `pending_payment` blob: either a string `JSON.parse` decodes
to a pending-payment record, or one on which it throws. -/
inductive StoredBlob where
  | wellFormed (p : PendingPayment)
  | malformed (raw : String)
deriving DecidableEq, Repr

/-- `handleCheckout`'s write (StripeCheckout.tsx): `JSON.stringify` of a
record always produces a blob that parses back to it. -/
def writePendingPayment (p : PendingPayment) (_ : Option StoredBlob) :
    Option StoredBlob :=
  some (.wellFormed p)

/-- The payment-return read (`PaymentSuccessContent`): on a present,
parseable blob the record is delivered and the key removed
(`sessionStorage.removeItem`); on a malformed blob the parse throws and the
`catch` leaves the key in place; on an absent key nothing happens.  Returns
the new storage state and the record delivered to the page. -/
def readPendingPayment (st : Option StoredBlob) :
    Option StoredBlob × Option PendingPayment :=
  match st with
  | none => (none, none)
  | some (.wellFormed p) => (none, some p)
  | some (.malformed raw) => (some (.malformed raw), none)

/-- C6: the handoff record is single-use.  After the checkout write, the
first payment-return read delivers the record and clears the slot, and a
second read without an intervening write delivers nothing — the same stale
data is never returned twice. -/
theorem c6_pending_payment_single_use (p : PendingPayment)
    (st0 : Option StoredBlob) :
    (readPendingPayment (writePendingPayment p st0)).2 = some p ∧
    (readPendingPayment (writePendingPayment p st0)).1 = none ∧
    (readPendingPayment (readPendingPayment (writePendingPayment p st0)).1).2
      = none := by
  exact ⟨rfl, rfl, rfl⟩

end AiWebAuditor

namespace AiWebAuditor

/-! ## C7: URL normalization (`handleUrlSubmit`, ReportView.tsx) -/

/-- JS `s.startsWith(pre)` — character-prefix test. -/
def jsStartsWith (s pre : String) : Bool :=
  pre.toList.isPrefixOf s.toList

/-- The normalization in `handleUrlSubmit`:
`if (!url.startsWith('http://') && !url.startsWith('https://'))
validUrl = 'https://' + url`. -/
def normalizeUrl (url : String) : String :=
  if !jsStartsWith url "http://" && !jsStartsWith url "https://" then
    "https://" ++ url
  else url

/-- Spec-side definition (RFC 3986 scheme grammar), for comparison with the
code: a scheme is a leading letter followed by letters, digits, `+`, `-` or
`.`, terminated by `:`.  The claim's "has no scheme at all" is the negation
of this. -/
def schemeChar (c : Char) : Bool :=
  c.isAlpha || c.isDigit || c = '+' || c = '-' || c = '.'

/-- Scan for the `:` that closes a scheme, over scheme characters. -/
def schemeTail : List Char → Bool
  | [] => false
  | c :: rest => if c = ':' then true else schemeChar c && schemeTail rest

/-- Whether a string begins with a URL scheme (spec-side definition). -/
def hasScheme (s : String) : Bool :=
  match s.toList with
  | [] => false
  | c :: rest => c.isAlpha && schemeTail rest

/-- Spec-side necessary condition for the `new URL` constructor to accept a
string (WHATWG URL): an `http://` or `https://` URL is valid only with a
nonempty host, so at least one character must follow the scheme separator.
`false` here implies `new URL` throws. -/
def httpUrlHasHostChars (s : String) : Bool :=
  if jsStartsWith s "https://" then !(s.toList.drop 8).isEmpty
  else if jsStartsWith s "http://" then !(s.toList.drop 7).isEmpty
  else true

/-- Counterexamples to C7 as stated.  Scheme conjunct: `"ftp://example.com"`
has a scheme (`ftp`), yet the code still prepends `https://` — the prefix is
not added "only when the input has no scheme at all", because the code tests
only for the two literal prefixes `http://` and `https://`.  Validity
conjunct: the empty input normalizes to `"https://"`, which has no character
after the scheme separator, hence no host — `new URL` rejects it, so
normalization does not yield a valid absolute URL for every input string
(the code guards validity by a separate `new URL` try/catch that sends the
user back with an error). -/
theorem c7_normalization_counterexample :
    hasScheme "ftp://example.com" = true ∧
    normalizeUrl "ftp://example.com" = "https://ftp://example.com" ∧
    normalizeUrl "ftp://example.com" ≠ "ftp://example.com" ∧
    normalizeUrl "" = "https://" ∧
    httpUrlHasHostChars (normalizeUrl "") = false := by
  decide

/-- C7 (amended): normalization is idempotent — normalizing the normalized
result again yields the same string, hence the same valid absolute URL
exactly when the once-normalized result is one (it need not be: see the
counterexample); the normalized result always starts with `http://` or
`https://`; and the `https://` prefix is added exactly when the input starts
with neither `http://` nor `https://` (so inputs carrying a non-http(s)
scheme are prefixed too). -/
theorem c7_normalize_idempotent_amended (s : String) :
    normalizeUrl (normalizeUrl s) = normalizeUrl s ∧
    (jsStartsWith (normalizeUrl s) "http://"
      || jsStartsWith (normalizeUrl s) "https://") = true ∧
    ((jsStartsWith s "http://" || jsStartsWith s "https://") = true →
      normalizeUrl s = s) ∧
    ((jsStartsWith s "http://" || jsStartsWith s "https://") = false →
      normalizeUrl s = "https://" ++ s ∧ normalizeUrl s ≠ s) := by
  have hpre : jsStartsWith ("https://" ++ s) "https://" = true := by
    simp [jsStartsWith, String.toList, String.data_append,
      List.isPrefixOf_iff_prefix]
  refine ⟨?_, ?_, ?_, ?_⟩
  · by_cases h1 : jsStartsWith s "http://" <;>
      by_cases h2 : jsStartsWith s "https://" <;>
      simp [normalizeUrl, h1, h2, hpre]
  · by_cases h1 : jsStartsWith s "http://" <;>
      by_cases h2 : jsStartsWith s "https://" <;>
      simp [normalizeUrl, h1, h2, hpre]
  · intro h
    rcases Bool.or_eq_true_iff.mp h with h1 | h1 <;> simp [normalizeUrl, h1]
  · intro h
    rcases Bool.or_eq_false_iff.mp h with ⟨h1, h2⟩
    refine ⟨by simp [normalizeUrl, h1, h2], ?_⟩
    rw [show normalizeUrl s = "https://" ++ s by simp [normalizeUrl, h1, h2]]
    intro heq
    have := congrArg String.length heq
    rw [String.length_append,
      show ("https://" : String).length = 8 from rfl] at this
    omega

/-- Witness for C7 (amended): both hypothesis branches are realized — a
schemeless host gets the prefix and is changed; an `https://` input is left
alone; both are idempotent and the normalized result carries an http(s)
scheme. -/
theorem c7_normalize_idempotent_amended_witness :
    normalizeUrl (normalizeUrl "example.com") = normalizeUrl "example.com" ∧
    (jsStartsWith (normalizeUrl "example.com") "http://"
      || jsStartsWith (normalizeUrl "example.com") "https://") = true ∧
    normalizeUrl "example.com" = "https://example.com" ∧
    normalizeUrl "https://example.com" = "https://example.com" :=
  ⟨(c7_normalize_idempotent_amended "example.com").1,
   (c7_normalize_idempotent_amended "example.com").2.1,
   ((c7_normalize_idempotent_amended "example.com").2.2.2 (by decide)).1,
   (c7_normalize_idempotent_amended "https://example.com").2.2.1 (by decide)⟩

end AiWebAuditor

namespace AiWebAuditor

/-! ## C8 / C10: the PackageSelection component

State hooks `selectedPackage` / `selectedAudits`, handlers `toggleAudit`,
the package-card `onClick`, and `handleContinue` with the Continue button's
`disabled` condition.  `LeadCaptureFlow` mounts the component with the
default catalog (`packages = DEFAULT_PACKAGES`). -/

structure SelectionState where
  selectedPackage : Option String
  selectedAudits : List String
deriving DecidableEq, Repr

/-- `packages.find(p => p.id === pid)?.auditsIncluded || 0` for an id. -/
def packageAuditsIncluded (pid : String) : Nat :=
  match DEFAULT_PACKAGES.find? (fun p => decide (p.id = pid)) with
  | some p => p.auditsIncluded
  | none => 0

/-- `const maxAudits = currentPackage?.auditsIncluded || 0`. -/
def currentMaxAudits (st : SelectionState) : Nat :=
  match st.selectedPackage with
  | none => 0
  | some pid => packageAuditsIncluded pid

/-- `toggleAudit` (PackageSelection): deselect a selected id; otherwise
select it only while below `maxAudits`. -/
def toggleAudit (auditId : String) (st : SelectionState) : SelectionState :=
  if st.selectedAudits.contains auditId then
    { st with
      selectedAudits := st.selectedAudits.filter (fun i => decide (i ≠ auditId)) }
  else if st.selectedAudits.length < currentMaxAudits st then
    { st with selectedAudits := st.selectedAudits ++ [auditId] }
  else st

/-- The package card's `onClick`: select the package and reset the category
selection — to all audit types for `full`, to empty otherwise. -/
def clickPackage (pkgId : String) (_ : SelectionState) : SelectionState :=
  { selectedPackage := some pkgId,
    selectedAudits := if pkgId = "full" then AUDIT_TYPE_IDS else [] }

/-- The Continue button's `disabled` condition:
`!selectedPackage || (selectedPackage !== 'full' && selectedAudits.length === 0)`. -/
def continueDisabled (st : SelectionState) : Bool :=
  st.selectedPackage.isNone ||
    (decide (st.selectedPackage ≠ some "full") && st.selectedAudits.isEmpty)

/-- `handleContinue`: for `full` emit all audit types, otherwise the manual
selection. -/
def handleContinue (st : SelectionState) : Option (String × List String) :=
  match st.selectedPackage with
  | none => none
  | some pid =>
    if pid = "full" then some (pid, AUDIT_TYPE_IDS)
    else some (pid, st.selectedAudits)

/-- A completed package-selection step: `handleContinue` fires only through
the enabled Continue button. -/
def confirmSelection (st : SelectionState) : Option (String × List String) :=
  if continueDisabled st then none else handleContinue st

/-- The component's user events. -/
inductive SelEvent where
  | clickPkg (pkgId : String)
  | toggle (auditId : String)

def selStep : SelEvent → SelectionState → SelectionState
  | .clickPkg pid, st => clickPackage pid st
  | .toggle aid, st => toggleAudit aid st

/-- Which events the rendered UI can emit in a state: a card click for each
catalog package; an audit toggle only for a rendered audit-type button —
the grid mounts only when a non-`full` package is selected. -/
def eventLegal (st : SelectionState) : SelEvent → Prop
  | .clickPkg pid => pid ∈ DEFAULT_PACKAGES.map Package.id
  | .toggle aid =>
    aid ∈ AUDIT_TYPE_IDS ∧
      ∃ pid, st.selectedPackage = some pid ∧ pid ≠ "full"

/-- States the mounted component can reach from its initial hooks
(`useState(null)` / `useState([])`). -/
inductive Reachable : SelectionState → Prop where
  | init : Reachable { selectedPackage := none, selectedAudits := [] }
  | step {st : SelectionState} {e : SelEvent} :
      Reachable st → eventLegal st e → Reachable (selStep e st)

/-- `toggleAudit` never touches `selectedPackage`, so the cap is stable. -/
theorem currentMaxAudits_toggleAudit (aid : String) (st : SelectionState) :
    currentMaxAudits (toggleAudit aid st) = currentMaxAudits st := by
  unfold toggleAudit
  split
  · rfl
  · split <;> rfl

/-- Invariant of every reachable state: the selection never exceeds the
current package's cap. -/
theorem reachable_selection_le_cap {st : SelectionState} (h : Reachable st) :
    st.selectedAudits.length ≤ currentMaxAudits st := by
  induction h with
  | init => exact Nat.le_refl 0
  | step hr hl ih =>
    rename_i st e
    cases e with
    | clickPkg pid =>
      show (clickPackage pid st).selectedAudits.length
        ≤ currentMaxAudits (clickPackage pid st)
      by_cases hf : pid = "full"
      · subst hf
        simp only [clickPackage]
        decide
      · simp [clickPackage, hf, currentMaxAudits]
    | toggle aid =>
      show (toggleAudit aid st).selectedAudits.length
        ≤ currentMaxAudits (toggleAudit aid st)
      rw [currentMaxAudits_toggleAudit]
      unfold toggleAudit
      split
      · exact le_trans (List.length_filter_le _ _) ih
      · split
        · rename_i hlt
          simpa [List.length_append] using hlt
        · exact ih

/-- C8: in every reachable state the selection respects the cap, and a
completed selection obeys the package rules — `full` confirms with exactly
the full six-category set regardless of interaction, and every other package
confirms with `1 ≤ size ≤ audits_included`. -/
theorem c8_package_category_invariant (st : SelectionState)
    (h : Reachable st) :
    st.selectedAudits.length ≤ currentMaxAudits st ∧
    ∀ pid audits, confirmSelection st = some (pid, audits) →
      (pid = "full" → audits = AUDIT_TYPE_IDS) ∧
      (pid ≠ "full" →
        1 ≤ audits.length ∧ audits.length ≤ packageAuditsIncluded pid) := by
  refine ⟨reachable_selection_le_cap h, ?_⟩
  intro pid audits hc
  unfold confirmSelection at hc
  split at hc
  · exact absurd hc (by simp)
  · rename_i hen
    unfold handleContinue at hc
    split at hc
    · exact absurd hc (by simp)
    · rename_i pid0 hst
      split at hc
      · rename_i hf
        injection hc with hc1
        injection hc1 with hpid haud
        subst hpid; subst haud; subst hf
        exact ⟨fun _ => rfl, fun hne => absurd rfl hne⟩
      · rename_i hf
        injection hc with hc1
        injection hc1 with hpid haud
        subst hpid; subst haud
        refine ⟨fun hfe => absurd hfe hf, fun _ => ⟨?_, ?_⟩⟩
        · by_contra hlen
          have hemp : st.selectedAudits.isEmpty = true := by
            cases hae : st.selectedAudits with
            | nil => rfl
            | cons a t => rw [hae] at hlen; simp at hlen
          apply hen
          simp [continueDisabled, hst, hemp, hf]
        · have := reachable_selection_le_cap h
          rwa [currentMaxAudits, hst] at this

/-- Witness for C8: after clicking `starter` and toggling one category, the
reachable state confirms with a selection of size 1, within the cap 2. -/
theorem c8_package_category_invariant_witness :
    1 ≤ (["performance"] : List String).length ∧
    (["performance"] : List String).length ≤ packageAuditsIncluded "starter" :=
  ((c8_package_category_invariant
      (selStep (.toggle "performance")
        (selStep (.clickPkg "starter")
          { selectedPackage := none, selectedAudits := [] }))
      (Reachable.step
        (Reachable.step Reachable.init
          (show "starter" ∈ DEFAULT_PACKAGES.map Package.id by decide))
        ⟨by decide, "starter", rfl, by decide⟩)).2
    "starter" ["performance"] (by decide)).2 (by decide)

/-- C10: clicking any catalog package resets the category selection — to the
six-category set for `full`, to the empty set otherwise — independently of
whatever was selected before, and the reset selection is within the new
package's cap. -/
theorem c10_package_click_resets_selection (st : SelectionState)
    (pid : String) (hpid : pid ∈ DEFAULT_PACKAGES.map Package.id) :
    (clickPackage pid st).selectedAudits
        = (if pid = "full" then AUDIT_TYPE_IDS else []) ∧
    (∀ st' : SelectionState,
      (clickPackage pid st').selectedAudits
        = (clickPackage pid st).selectedAudits) ∧
    (clickPackage pid st).selectedAudits.length ≤ packageAuditsIncluded pid := by
  refine ⟨rfl, fun st' => rfl, ?_⟩
  simp only [DEFAULT_PACKAGES, List.map_cons, List.map_nil, List.mem_cons,
    List.not_mem_nil, or_false] at hpid
  rcases hpid with h1 | h1 | h1 <;> subst h1 <;>
    simp only [clickPackage] <;> decide

/-- Witness for C10: switching to `pro` from a `starter` state with two
chosen categories resets the selection to empty, within `pro`'s cap. -/
theorem c10_package_click_resets_selection_witness :
    (clickPackage "pro"
        { selectedPackage := some "starter",
          selectedAudits := ["performance", "seo"] }).selectedAudits
      = (if "pro" = "full" then AUDIT_TYPE_IDS else []) ∧
    (clickPackage "pro"
        { selectedPackage := some "starter",
          selectedAudits := ["performance", "seo"] }).selectedAudits.length
      ≤ packageAuditsIncluded "pro" :=
  ⟨(c10_package_click_resets_selection _ "pro" (by decide)).1,
   (c10_package_click_resets_selection
      { selectedPackage := some "starter",
        selectedAudits := ["performance", "seo"] } "pro" (by decide)).2.2⟩

end AiWebAuditor

namespace AiWebAuditor

/-! ## C9: the enrollment reference code -/

/-- Uppercased base-36 digits are uppercase base-36 characters. -/
theorem digit36Char_toUpper_mem (d : Fin 36) :
    Char.toUpper (digit36Char d)
      ∈ ("0123456789ABCDEFGHIJKLMNOPQRSTUVWXYZ" : String).toList := by
  revert d
  decide

/-- `Nat.digitChar` of a last decimal digit is a digit character. -/
theorem digitChar_mod10_isDigit (k : Nat) :
    (Nat.digitChar (k % 10)).isDigit = true := by
  have h : k % 10 < 10 := Nat.mod_lt _ (by norm_num)
  have hall : ∀ j < 10, (Nat.digitChar j).isDigit = true := by decide
  exact hall _ h

/-- Counterexample to C9 as stated: the random part is not always exactly 4
characters.  When `Math.random()` returns 0 its base-36 rendering is `"0"`,
`substring(2, 6)` of which is empty — the reference degenerates to
`"AWA-20260207-"`; a draw whose base-36 expansion is a single digit (e.g.
`0.i`, i.e. 1/2) yields one character. -/
theorem c9_reference_random_part_counterexample :
    generateEnrollmentReference 2026 2 7 [] = "AWA-20260207-" ∧
    (enrollmentRandomPart []).length = 0 ∧
    (enrollmentRandomPart [(18 : Fin 36)]).length = 1 := by
  decide

/-- C9 (amended): the reference always has the shape
`AWA-YYYYMMDD-XXXX´ with an eight-digit date, but the random part `XXXX`
has `min(k, 4)` uppercase base-36 characters, where `k` is the number of
base-36 fractional digits of the random draw — exactly 4 only when the
draw's expansion has at least 4 digits. -/
theorem c9_reference_format_amended (year month day : Nat)
    (digits : List (Fin 36)) :
    generateEnrollmentReference year month day digits
      = "AWA-" ++ isoDateCompact year month day ++ "-"
        ++ enrollmentRandomPart digits ∧
    (isoDateCompact year month day).length = 8 ∧
    (∀ c ∈ (isoDateCompact year month day).toList, c.isDigit = true) ∧
    (enrollmentRandomPart digits).length = min digits.length 4 ∧
    (∀ c ∈ (enrollmentRandomPart digits).toList,
        c ∈ ("0123456789ABCDEFGHIJKLMNOPQRSTUVWXYZ" : String).toList) ∧
    (4 ≤ digits.length → (enrollmentRandomPart digits).length = 4) := by
  have hlen4 : (enrollmentRandomPart digits).length = min digits.length 4 := by
    cases digits with
    | nil => decide
    | cons d ds =>
      show ((((jsRandomToString36 (d :: ds)).toList.drop 2).take 4).map
        Char.toUpper).length = min (d :: ds).length 4
      have hs : (jsRandomToString36 (d :: ds)).toList
          = '0' :: '.' :: (d :: ds).map digit36Char := rfl
      rw [hs]
      simp only [List.drop_succ_cons, List.drop_zero, List.length_map,
        List.length_take]
      omega
  refine ⟨rfl, rfl, ?_, hlen4, ?_, ?_⟩
  · intro c hc
    have hl : (isoDateCompact year month day).toList
        = pad4Chars year ++ (pad2Chars month ++ pad2Chars day) := rfl
    rw [hl] at hc
    simp only [pad4Chars, pad2Chars, List.mem_append, List.mem_cons,
      List.not_mem_nil, or_false] at hc
    rcases hc with (h | h | h | h) | (h | h) | (h | h) <;> subst h <;>
      exact digitChar_mod10_isDigit _
  · cases digits with
    | nil =>
      intro c hc
      have hl : (enrollmentRandomPart []).toList = [] := rfl
      rw [hl] at hc
      exact absurd hc (List.not_mem_nil c)
    | cons d ds =>
      intro c hc
      have hl : (enrollmentRandomPart (d :: ds)).toList
          = (((d :: ds).map digit36Char).take 4).map Char.toUpper := rfl
      rw [hl] at hc
      rcases List.mem_map.mp hc with ⟨a, ha, rfl⟩
      rcases List.mem_map.mp (List.mem_of_mem_take ha) with ⟨e, _, rfl⟩
      exact digit36Char_toUpper_mem e
  · intro h4
    rw [hlen4]
    omega

/-- Witness for C9 (amended): a draw with five fractional digits does yield
exactly four characters. -/
theorem c9_reference_format_amended_witness :
    (enrollmentRandomPart [(0 : Fin 36), 1, 2, 3, 4]).length = 4 :=
  (c9_reference_format_amended 2026 2 7 [0, 1, 2, 3, 4]).2.2.2.2.2 (by decide)

end AiWebAuditor
